import Mathlib

/-!
Verification of the matrix-cli session/sync orchestrator and
identifier-resolution layer, shallowly embedded from src/main.rs.

The program's interactions with the external Protocol Client, the file
system and the console are modelled as an explicit effect trace; the
environment (server responses, file-system contents, remote-call
results) is an oracle structure `Env`. Rust `panic!`/`expect`/`unwrap`
terminations are modelled by the `Outcome.panic` constructor, `Result`
errors propagated with the question-mark operator by `Outcome.err`.
-/

/-- Result of running a piece of the program: normal return, a
propagated Rust error, or a process-aborting panic. -/
inductive Outcome (α : Type) where
  | ok (a : α)
  | err (msg : String)
  | panic (msg : String)
deriving DecidableEq

def Outcome.isOk {α : Type} : Outcome α → Bool
  | .ok _ => true
  | _ => false

def Outcome.isErr {α : Type} : Outcome α → Bool
  | .err _ => true
  | _ => false

def Outcome.isPanic {α : Type} : Outcome α → Bool
  | .panic _ => true
  | _ => false

/-- The persisted credential bundle (matrix_sdk::Session). -/
structure Session where
  userId : String
  deviceId : String
  accessToken : String
deriving DecidableEq

/-- ruma RoomPreset, as set by the `room create` handler. -/
inductive RoomPreset where
  | privateChat
  | publicChat
deriving DecidableEq

/-- The fields of ruma's create_room::Request that the `room create`
handler populates. -/
structure CreateRoomReq where
  name : Option String
  preset : RoomPreset
  room_alias_name : Option String
  room_version : Option String
deriving DecidableEq

/-- One observable interaction of the program: a call into the Protocol
Client, a file-system access, or console output. -/
inductive Effect where
  | loginCall (username password : String)
  | writeSessionFile (path : String)
  | readSessionFile (path : String)
  | restoreLoginCall
  | syncOnceCall
  | syncFetchCall
  | aliasLookupCall (aliasStr : String)
  | createAliasCall (aliasStr roomId : String)
  | createRoomCall (req : CreateRoomReq)
  | printRoomVersion (v : String)
  | printCreateRequest (req : CreateRoomReq)
  | printResponse
  | joinCall (target server : String)
  | sendMessageCall (roomId msg : String)
  | banCall (roomId user : String) (reason : Option String)
  | kickCall (roomId user : String) (reason : Option String)
  | inviteCall (roomId user : String)
  | leaveCall (roomId : String)
  | displayNameCall
  | setDisplayNameCall (n : String)
  | avatarUrlCall
  | setAvatarUrlCall (url : String)
  | uploadCall
  | printTable (rows : List (String × String × String))
  | print (s : String)
deriving DecidableEq

def Effect.isLoginCall : Effect → Bool
  | .loginCall _ _ => true
  | _ => false

def Effect.isWriteSession : Effect → Bool
  | .writeSessionFile _ => true
  | _ => false

def Effect.isCreateRoomCall : Effect → Bool
  | .createRoomCall _ => true
  | _ => false

/-- A room known to the client's local state (client.joined_rooms() and
friends); `canonicalAlias` is the local part of the canonical alias. -/
structure RoomInfo where
  roomId : String
  name : Option String
  canonicalAlias : Option String
deriving DecidableEq

/-- Membership status of the `Room` value handed to an event callback. -/
inductive RoomMembership where
  | joined
  | invited
  | left
deriving DecidableEq

/-- Message content as matched by the listen callback. -/
inductive MsgType where
  | text (body : String)
  | other
deriving DecidableEq

def MsgType.isText : MsgType → Bool
  | .text _ => true
  | .other => false

/-- A SyncRoomMessageEvent together with the Room it was delivered in. -/
structure SyncEvent where
  roomId : String
  roomMembership : RoomMembership
  sender : String
  content : MsgType
  originServerTs : Int
deriving DecidableEq

/-- Oracle for everything outside the program: server responses, the
file system, and whether each fallible external call succeeds. -/
structure Env where
  parseHost : String → Option String
  fileExists : String → Bool
  loginOk : String → String → Bool
  writeOk : String → Bool
  readSession : String → Outcome Session
  restoreOk : Session → Bool
  syncOnceOk : Bool
  aliasLookup : String → Option String
  remoteOk : Effect → Bool
  joinedRooms : List RoomInfo
  invitedRooms : List RoomInfo
  leftRooms : List RoomInfo
  displayNameOk : Bool
  displayName : Option String
  avatarCallOk : Bool
  avatarUrl : Option String
  fileOpenOk : String → Bool
  mimeGuess : String → Option String
  uploadedUri : String

/-! ## Identifier classification (ruma identifier validation) -/

/-- The sigil of an identifier: its first character (a blank for the
empty string, which no identifier form accepts). -/
def sigilOf (s : String) : Char := s.data.headD ' '

/-- The identifier has a server-name part after its sigil. -/
def hasServerPart (s : String) : Bool := (s.data.drop 1).contains ':'

/-- Valid canonical room id: sigil is the exclamation mark and a server
part follows. -/
def isRoomIdStr (s : String) : Bool := sigilOf s == '!' && hasServerPart s

/-- Valid room alias: sigil is the hash mark and a server part follows. -/
def isAliasStr (s : String) : Bool := sigilOf s == '#' && hasServerPart s

/-- Valid RoomOrAliasId: either form. -/
def isRoomOrAliasStr (s : String) : Bool := isRoomIdStr s || isAliasStr s

/-- Valid user id: at-sign sigil and a server part. -/
def isUserIdStr (s : String) : Bool := sigilOf s == '@' && hasServerPart s

/-- Valid ServerName (simplified host validation). -/
def isServerNameStr (s : String) : Bool := !s.data.isEmpty

/-- Valid RoomVersionId: non-empty and at most 32 characters. -/
def isRoomVersionStr (s : String) : Bool := !s.data.isEmpty && s.data.length ≤ 32

/-- Valid RoomName: non-empty and at most 255 characters. -/
def isRoomNameStr (s : String) : Bool := !s.data.isEmpty && s.data.length ≤ 255

/-! ## Identifier Resolver (get_room_id_from_alias and helpers) -/

/-- Embeds get_room_id_or_alias_from_str: RoomOrAliasId::try_from with
unwrap, which panics on a malformed token. -/
def get_room_id_or_alias_from_str (room_or_alias : String) : Outcome String :=
  if isRoomOrAliasStr room_or_alias then .ok room_or_alias
  else .panic "Invalid room or alias id"

/-- Embeds get_room_alias_id_from_str: RoomAliasId::try_from with
unwrap. -/
def get_room_alias_id_from_str (aliasStr : String) : Outcome String :=
  if isAliasStr aliasStr then .ok aliasStr
  else .panic "Invalid room alias id"

/-- Embeds get_room_id_from_alias: on a room-id sigil, re-parse as a
RoomId and return it directly with no network call; otherwise re-parse
as a RoomAliasId and send one GetRoomAliasRequest, panicking with
"Alias lookup failed" when the server call errors (no mapping). -/
def get_room_id_from_alias (env : Env) (aliasStr : String) :
    Outcome String × List Effect :=
  if sigilOf aliasStr == '!' then
    (if isRoomIdStr aliasStr then .ok aliasStr else .panic "Invalid room id", [])
  else if isAliasStr aliasStr then
    match env.aliasLookup aliasStr with
    | some rid => (.ok rid, [Effect.aliasLookupCall aliasStr])
    | none => (.panic "Alias lookup failed", [Effect.aliasLookupCall aliasStr])
  else (.panic "Invalid Room Alias", [])

/-- Embeds get_room_id_from_alias_str: parse as RoomOrAliasId, then
resolve. -/
def get_room_id_from_alias_str (env : Env) (room_or_alias : String) :
    Outcome String × List Effect :=
  match get_room_id_or_alias_from_str room_or_alias with
  | .ok a => get_room_id_from_alias env a
  | .err m => (.err m, [])
  | .panic m => (.panic m, [])

/-- Embeds get_room_name_from_opt_str: RoomName::try_from with unwrap
inside Option.map. -/
def get_room_name_from_opt_str (name : Option String) :
    Outcome (Option String) :=
  match name with
  | none => .ok none
  | some n => if isRoomNameStr n then .ok (some n) else .panic "Invalid room name"

/-! ## Authenticator (login) -/

/-- Whether the configured session file exists, exactly as computed at
the top of login. -/
def sessionFileExists (env : Env) (session_file : Option String) : Bool :=
  match session_file with
  | none => false
  | some sf => env.fileExists sf

/-- The forced initial sync (client.sync_once with unwrap) that ends
login on both paths. -/
def finishSync (env : Env) (tr : List Effect) : Outcome Unit × List Effect :=
  if env.syncOnceOk then (.ok (), tr ++ [Effect.syncOnceCall])
  else (.panic "sync_once failed", tr ++ [Effect.syncOnceCall])

/-- The fresh-login arm of login: expect username and password, call
Protocol Client login, then write the session file only when a path is
configured. -/
def freshLogin (env : Env) (username password : Option String)
    (session_file : Option String) : Outcome Unit × List Effect :=
  match username with
  | none => (.panic "Missing username", [])
  | some u =>
    match password with
    | none => (.panic "Missing password", [])
    | some p =>
      if env.loginOk u p then
        match session_file with
        | some sf =>
          if env.writeOk sf then
            finishSync env [Effect.loginCall u p, Effect.writeSessionFile sf]
          else (.err "session file write failed", [Effect.loginCall u p])
        | none => finishSync env [Effect.loginCall u p]
      else (.err "login failed", [Effect.loginCall u p])

/-- The restore arm of login: open and parse the session file, then
restore_login. -/
def restoreLogin (env : Env) (sf : String) : Outcome Unit × List Effect :=
  match env.readSession sf with
  | .ok s =>
    if env.restoreOk s then
      finishSync env [Effect.readSessionFile sf, Effect.restoreLoginCall]
    else (.err "restore_login failed",
      [Effect.readSessionFile sf, Effect.restoreLoginCall])
  | .err m => (.err m, [Effect.readSessionFile sf])
  | .panic m => (.panic m, [Effect.readSessionFile sf])

/-- Embeds fn login: dispatch on session_file_exists. -/
def login (env : Env) (username password : Option String)
    (session_file : Option String) : Outcome Unit × List Effect :=
  match sessionFileExists env session_file, session_file with
  | true, some sf => restoreLogin env sf
  | _, _ => freshLogin env username password session_file

/-! ## Command Dispatcher (process_cmd) -/

/-- The parsed `message` subcommands. -/
inductive MessageCmd where
  | listen (room : String)
  | send (room msg : String)
deriving DecidableEq

/-- The parsed `user` subcommands. -/
inductive UserCmd where
  | getDisplayName
  | setDisplayName (n : String)
  | getAvatarUrl
  | setAvatar (file : String)
  | setAvatarUrl (url : String)
  | invitedRooms
  | joinedRooms
  | leftRooms
deriving DecidableEq

/-- The parsed `room` subcommands. -/
inductive RoomCmd where
  | ban (reason : Option String) (room user : String)
  | createAlias (room aliasStr : String)
  | create (name : Option String) (is_public : Bool)
      (aliasStr version : Option String)
  | invite (room user : String)
  | join (room : String)
  | kick (reason : Option String) (room user : String)
  | leave (room : String)
deriving DecidableEq

/-- The parsed top-level subcommand tree. -/
inductive MatrixCli where
  | messageCmd (commands : Option MessageCmd)
  | userCmd (commands : Option UserCmd)
  | roomCmd (commands : Option RoomCmd)
deriving DecidableEq

/-- client.get_joined_room succeeds exactly when the room id is in the
locally known joined rooms. -/
def isJoined (env : Env) (rid : String) : Bool :=
  env.joinedRooms.any fun r => r.roomId == rid

/-- A fallible remote call propagated with the question-mark operator:
the call is issued (its effect recorded) and the oracle decides
success. -/
def remoteCall (env : Env) (e : Effect) (tr : List Effect) :
    Outcome Unit × List Effect :=
  if env.remoteOk e then (.ok (), tr ++ [e]) else (.err "remote call failed", tr ++ [e])

/-- Embeds the MessageCmd::Send arm: parse the raw token as a RoomId
(expect "Invalid Room ID"), require membership, then send. The
Identifier Resolver is never consulted. -/
def processSend (env : Env) (room msg : String) : Outcome Unit × List Effect :=
  if isRoomIdStr room then
    if isJoined env room then remoteCall env (Effect.sendMessageCall room msg) []
    else (.panic "User has not joined this room", [])
  else (.panic "Invalid Room ID", [])

/-- Embeds the closure registered by MessageCmd::Listen: deliver the
event when its Room is Joined and its content is a text message; the
output line uses the event's sender, timestamp and body. The commanded
room never appears in the closure. -/
def listenCallback (event : SyncEvent) : Option String :=
  match event.roomMembership with
  | .joined =>
    match event.content with
    | .text body =>
      some ("From: " ++ event.sender ++ "\nDate: " ++ toString event.originServerTs
        ++ "\nMessage: " ++ body ++ "\n")
    | .other => none
  | _ => none

/-- Embeds the MessageCmd::Listen arm: register the callback, print the
banner, deliver callback output for each event received until Ctrl-C,
then print the exit line. -/
def processListen (_env : Env) (room : String) (events : List SyncEvent) :
    Outcome Unit × List Effect :=
  (.ok (),
    Effect.print ("Listening to room " ++ room ++ ", Ctrl-C to stop")
      :: (events.filterMap listenCallback).map Effect.print
      ++ [Effect.print "Exiting."])

/-- Embeds the RoomCmd::Ban arm. -/
def processBan (env : Env) (reason : Option String) (room user : String) :
    Outcome Unit × List Effect :=
  match get_room_id_from_alias_str env room with
  | (.ok rid, tr) =>
    if isJoined env rid then
      if isUserIdStr user then remoteCall env (Effect.banCall rid user reason) tr
      else (.panic "Invalid user name", tr)
    else (.panic "User does not belong to this room", tr)
  | (.err m, tr) => (.err m, tr)
  | (.panic m, tr) => (.panic m, tr)

/-- Embeds the RoomCmd::Kick arm. -/
def processKick (env : Env) (reason : Option String) (room user : String) :
    Outcome Unit × List Effect :=
  match get_room_id_from_alias_str env room with
  | (.ok rid, tr) =>
    if isJoined env rid then
      if isUserIdStr user then remoteCall env (Effect.kickCall rid user reason) tr
      else (.panic "Invalid user name", tr)
    else (.panic "User does not belong to this room", tr)
  | (.err m, tr) => (.err m, tr)
  | (.panic m, tr) => (.panic m, tr)

/-- Embeds the RoomCmd::Invite arm. -/
def processInvite (env : Env) (room user : String) :
    Outcome Unit × List Effect :=
  match get_room_id_from_alias_str env room with
  | (.ok rid, tr) =>
    if isJoined env rid then
      if isUserIdStr user then remoteCall env (Effect.inviteCall rid user) tr
      else (.panic "Invalid user name", tr)
    else (.panic "User does not belong to this room", tr)
  | (.err m, tr) => (.err m, tr)
  | (.panic m, tr) => (.panic m, tr)

/-- Embeds the RoomCmd::Leave arm. -/
def processLeave (env : Env) (room : String) : Outcome Unit × List Effect :=
  match get_room_id_from_alias_str env room with
  | (.ok rid, tr) =>
    if isJoined env rid then remoteCall env (Effect.leaveCall rid) tr
    else (.panic "User does not belong to this room", tr)
  | (.err m, tr) => (.err m, tr)
  | (.panic m, tr) => (.panic m, tr)

/-- Embeds the RoomCmd::CreateAlias arm: resolve the room, parse the
new alias, send a CreateRoomAliasRequest. -/
def processCreateAlias (env : Env) (room aliasStr : String) :
    Outcome Unit × List Effect :=
  match get_room_id_from_alias_str env room with
  | (.ok rid, tr) =>
    match get_room_alias_id_from_str aliasStr with
    | .ok a => remoteCall env (Effect.createAliasCall a rid) tr
    | .err m => (.err m, tr)
    | .panic m => (.panic m, tr)
  | (.err m, tr) => (.err m, tr)
  | (.panic m, tr) => (.panic m, tr)

/-- Embeds the RoomCmd::Join arm: parse the raw token as a
RoomOrAliasId and pass it, unresolved, to join_room_by_id_or_alias
together with the homeserver hostname. -/
def processJoin (env : Env) (hostname room : String) :
    Outcome Unit × List Effect :=
  match get_room_id_or_alias_from_str room with
  | .ok roa =>
    if isServerNameStr hostname then remoteCall env (Effect.joinCall roa hostname) []
    else (.panic "Invalid server name", [])
  | .err m => (.err m, [])
  | .panic m => (.panic m, [])

/-- The preset chosen by RoomCmd::Create from the public flag. -/
def mkPreset (is_public : Bool) : RoomPreset :=
  if is_public then .publicChat else .privateChat

/-- The tail of the RoomCmd::Create arm: print the request, then issue
create_room only when dry_run is off. -/
def createFinish (env : Env) (dry_run : Bool) (req : CreateRoomReq)
    (tr : List Effect) : Outcome Unit × List Effect :=
  let tr2 := tr ++ [Effect.printCreateRequest req]
  if dry_run then (.ok (), tr2)
  else if env.remoteOk (Effect.createRoomCall req) then
    (.ok (), tr2 ++ [Effect.createRoomCall req, Effect.printResponse])
  else (.err "create room failed", tr2 ++ [Effect.createRoomCall req])

/-- Embeds the RoomCmd::Create arm: parse the optional name; build the
request; a supplied version is parsed (unwrap) and printed but
room_version is then set to None in every case. -/
def processCreate (env : Env) (dry_run : Bool) (name : Option String)
    (is_public : Bool) (aliasStr version : Option String) :
    Outcome Unit × List Effect :=
  match get_room_name_from_opt_str name with
  | .ok reqName =>
    match version with
    | none =>
      createFinish env dry_run
        { name := reqName, preset := mkPreset is_public,
          room_alias_name := aliasStr, room_version := none } []
    | some v =>
      if isRoomVersionStr v then
        createFinish env dry_run
          { name := reqName, preset := mkPreset is_public,
            room_alias_name := aliasStr, room_version := none }
          [Effect.printRoomVersion v]
      else (.panic "Invalid room version", [])
  | .err m => (.err m, [])
  | .panic m => (.panic m, [])

/-- The server-name part of a room id (everything after the first
colon). -/
def serverNameOf (roomId : String) : String :=
  String.mk ((roomId.data.dropWhile fun c => c != ':').drop 1)

/-- One row of the room table printed by the invited/joined/left-rooms
handlers. -/
def roomRow (r : RoomInfo) : String × String × String :=
  (r.roomId,
    (match r.canonicalAlias with
     | none => ""
     | some a => "#" ++ a ++ ":" ++ serverNameOf r.roomId),
    r.name.getD "")

/-- Embeds the UserCmd arms of process_cmd. -/
def processUser (env : Env) : UserCmd → Outcome Unit × List Effect
  | .getDisplayName =>
    if env.displayNameOk then
      match env.displayName with
      | none => (.ok (), [Effect.displayNameCall, Effect.print "Display Name Not Set"])
      | some n => (.ok (), [Effect.displayNameCall, Effect.print n])
    else (.err "display_name failed", [Effect.displayNameCall])
  | .setDisplayName n => remoteCall env (Effect.setDisplayNameCall n) []
  | .getAvatarUrl =>
    if env.avatarCallOk then
      match env.avatarUrl with
      | some url => (.ok (), [Effect.avatarUrlCall, Effect.print url])
      | none =>
        (.panic "called Option::unwrap() on a None value", [Effect.avatarUrlCall])
    else (.err "avatar_url failed", [Effect.avatarUrlCall])
  | .setAvatar file =>
    if env.fileOpenOk file then
      if (env.mimeGuess file).isSome then
        if env.remoteOk Effect.uploadCall then
          remoteCall env (Effect.setAvatarUrlCall env.uploadedUri) [Effect.uploadCall]
        else (.err "upload failed", [Effect.uploadCall])
      else (.panic "called Option::unwrap() on a None value", [])
    else (.err "could not open avatar file", [])
  | .setAvatarUrl url => remoteCall env (Effect.setAvatarUrlCall url) []
  | .invitedRooms => (.ok (), [Effect.printTable (env.invitedRooms.map roomRow)])
  | .joinedRooms => (.ok (), [Effect.printTable (env.joinedRooms.map roomRow)])
  | .leftRooms => (.ok (), [Effect.printTable (env.leftRooms.map roomRow)])

/-- Embeds the RoomCmd arms of process_cmd. -/
def processRoom (env : Env) (dry_run : Bool) (hostname : String) :
    RoomCmd → Outcome Unit × List Effect
  | .ban reason room user => processBan env reason room user
  | .createAlias room aliasStr => processCreateAlias env room aliasStr
  | .create name is_public aliasStr version =>
    processCreate env dry_run name is_public aliasStr version
  | .invite room user => processInvite env room user
  | .join room => processJoin env hostname room
  | .kick reason room user => processKick env reason room user
  | .leave room => processLeave env room

/-- Embeds fn process_cmd: dispatch the parsed command tree; no
subcommand is a no-op. `events` are the sync events received while a
listen command waits for Ctrl-C. -/
def process_cmd (env : Env) (dry_run : Bool) (subcommands : Option MatrixCli)
    (hostname : String) (events : List SyncEvent) :
    Outcome Unit × List Effect :=
  match subcommands with
  | none => (.ok (), [])
  | some (.messageCmd none) => (.ok (), [])
  | some (.messageCmd (some (.send room msg))) => processSend env room msg
  | some (.messageCmd (some (.listen room))) => processListen env room events
  | some (.userCmd none) => (.ok (), [])
  | some (.userCmd (some c)) => processUser env c
  | some (.roomCmd none) => (.ok (), [])
  | some (.roomCmd (some c)) => processRoom env dry_run hostname c

/-! ## Run Coordinator (main and the sync loop) -/

/-- The trace of fn sync: the continuous sync loop, an unbounded stream
of fetches truncated here at n. -/
def syncTrace (n : Nat) : List Effect := List.replicate n Effect.syncFetchCall

/-- An arbitrary interleaving of the two concurrent tasks' traces,
chosen by the boolean schedule. -/
def mergeTrace : List Bool → List Effect → List Effect → List Effect
  | _, [], r => r
  | _, a :: l, [] => a :: l
  | [], a :: l, r => (a :: l) ++ r
  | true :: sched, a :: l, r => a :: mergeTrace sched l r
  | false :: sched, l, b :: r => b :: mergeTrace sched l r

/-- The parsed command-line arguments (struct Cli). -/
structure Args where
  homeserver_url : String
  username : Option String
  password : Option String
  session_file : Option String
  store_path : Option String
  dry_run : Bool
  subcommands : Option MatrixCli

/-- Embeds fn main: parse the homeserver URL, run login to completion
(including its forced initial sync), then race the sync loop against
process_cmd; the traces of the two tasks interleave according to the
schedule, strictly after login's trace. -/
def mainRun (env : Env) (args : Args) (sched : List Bool) (n : Nat)
    (events : List SyncEvent) : Outcome Unit × List Effect :=
  match env.parseHost args.homeserver_url with
  | none => (.panic "Could not parse homeserver_url", [])
  | some hostname =>
    let l := login env args.username args.password args.session_file
    match l.1 with
    | .ok _ =>
      let c := process_cmd env args.dry_run args.subcommands hostname events
      (c.1, l.2 ++ mergeTrace sched (syncTrace n) c.2)
    | .err m => (.err m, l.2)
    | .panic m => (.panic m, l.2)

/-! ## Concrete environments used to exercise the model -/

/-- A concrete session record. -/
def session0 : Session :=
  { userId := "@user:example.org", deviceId := "DEVICE", accessToken := "token" }

/-- An all-success environment: the session file exists and restores,
the alias #general:example.org maps to !abc123:example.org, the room
!abc123:example.org is joined, and every remote call succeeds. The
account has no avatar URL set. -/
def env0 : Env :=
  { parseHost := fun _ => some "example.org"
    fileExists := fun _ => true
    loginOk := fun _ _ => true
    writeOk := fun _ => true
    readSession := fun _ => .ok session0
    restoreOk := fun _ => true
    syncOnceOk := true
    aliasLookup := fun a =>
      if a == "#general:example.org" then some "!abc123:example.org" else none
    remoteOk := fun _ => true
    joinedRooms :=
      [{ roomId := "!abc123:example.org", name := some "General",
         canonicalAlias := some "general" }]
    invitedRooms := []
    leftRooms := []
    displayNameOk := true
    displayName := some "User"
    avatarCallOk := true
    avatarUrl := none
    fileOpenOk := fun _ => true
    mimeGuess := fun _ => some "image/png"
    uploadedUri := "mxc://example.org/abc" }

/-- env0 with no session file present on disk (fresh-login side). -/
def envFresh : Env := { env0 with fileExists := fun _ => false }

/-- env0 with a file system where only old.json exists. -/
def envOld : Env := { env0 with fileExists := fun s => s == "old.json" }

/-- env0 with a server that knows no aliases at all. -/
def envNoAlias : Env := { env0 with aliasLookup := fun _ => none }

/-- A text message event arriving in a joined room other than the one
named on the listen command line. -/
def evOther : SyncEvent :=
  { roomId := "!other:example.org", roomMembership := .joined,
    sender := "@alice:example.org", content := .text "hi", originServerTs := 0 }

/-- Arguments of a run that restores a session and gives no
subcommand. -/
def args0 : Args :=
  { homeserver_url := "https://example.org", username := none, password := none
    session_file := some "session.json", store_path := none, dry_run := false
    subcommands := none }

/-- An optional parameter is valid when absent or accepted by the
parser. -/
def optValid (p : String → Bool) : Option String → Bool
  | none => true
  | some s => p s

/-- The version print emitted by `room create` for a supplied version. -/
def versionPrints : Option String → List Effect
  | none => []
  | some v => [Effect.printRoomVersion v]

/-! ## Helper lemmas -/

theorem aliasStr_sigil {t : String} (ht : isAliasStr t = true) :
    sigilOf t = '#' := by
  unfold isAliasStr at ht
  exact beq_iff_eq.mp ((Bool.and_eq_true _ _).mp ht).1

theorem aliasStr_not_roomId {t : String} (ht : isAliasStr t = true) :
    isRoomIdStr t = false := by
  unfold isRoomIdStr
  simp [aliasStr_sigil ht]

theorem aliasStr_server {t : String} (ht : isAliasStr t = true) :
    hasServerPart t = true :=
  ((Bool.and_eq_true _ _).mp ht).2

theorem roomIdStr_sigil {t : String} (ht : isRoomIdStr t = true) :
    sigilOf t = '!' := by
  unfold isRoomIdStr at ht
  exact beq_iff_eq.mp ((Bool.and_eq_true _ _).mp ht).1

/-- On an alias-form token with a server-side mapping, the
string-level resolver returns the canonical id after one lookup. -/
theorem get_room_id_from_alias_str_alias (env : Env) (t rid : String)
    (ht : isAliasStr t = true) (hl : env.aliasLookup t = some rid) :
    get_room_id_from_alias_str env t = (.ok rid, [Effect.aliasLookupCall t]) := by
  have hroa : isRoomOrAliasStr t = true := by
    simp [isRoomOrAliasStr, ht]
  have hnot : (sigilOf t == '!') = false := by
    simp [aliasStr_sigil ht]
  unfold get_room_id_from_alias_str get_room_id_or_alias_from_str
  simp only [hroa, if_true]
  unfold get_room_id_from_alias
  simp [hnot, ht, hl]

/-- finishSync always appends exactly one initial-sync call. -/
theorem finishSync_trace (env : Env) (tr : List Effect) :
    (finishSync env tr).2 = tr ++ [Effect.syncOnceCall] := by
  unfold finishSync
  split <;> rfl

/-! ## Claim theorems -/

/-- C6: for every token that is a valid raw room identifier, the
resolver returns that identifier unchanged and issues no network
call. -/
theorem resolver_room_id_identity (env : Env) (s : String)
    (h : isRoomIdStr s = true) :
    get_room_id_from_alias env s = (.ok s, []) := by
  have h1 : (sigilOf s == '!') = true := by
    simp [roomIdStr_sigil h]
  unfold get_room_id_from_alias
  simp [h1, h]

/-- C6 witness: the resolver maps a concrete raw room id to itself with
an empty trace. -/
theorem resolver_room_id_identity_witness :
    isRoomIdStr "!abc123:example.org" = true ∧
    get_room_id_from_alias env0 "!abc123:example.org" =
      (.ok "!abc123:example.org", []) :=
  ⟨by decide, resolver_room_id_identity env0 "!abc123:example.org" (by decide)⟩

/-- C7 counterexample: when the server reports no mapping for an alias,
the resolver does not return a typed error; it panics ("Alias lookup
failed") after the single lookup call. -/
theorem alias_lookup_failure_panics :
    (get_room_id_from_alias envNoAlias "#general:example.org").1 =
      Outcome.panic "Alias lookup failed" ∧
    (get_room_id_from_alias envNoAlias "#general:example.org").1.isErr = false ∧
    (get_room_id_from_alias envNoAlias "#general:example.org").2 =
      [Effect.aliasLookupCall "#general:example.org"] := by decide

/-- C7 amended: for every alias-form token the resolver issues exactly
one alias-lookup call; with a server mapping it returns the canonical
id, and with no mapping it panics rather than returning a typed
AliasNotFound error. -/
theorem resolver_alias_single_lookup (env : Env) (s : String)
    (h : isAliasStr s = true) :
    (get_room_id_from_alias env s).2 = [Effect.aliasLookupCall s] ∧
    (∀ rid, env.aliasLookup s = some rid →
      (get_room_id_from_alias env s).1 = .ok rid) ∧
    (env.aliasLookup s = none →
      (get_room_id_from_alias env s).1 = .panic "Alias lookup failed") := by
  have hnot : (sigilOf s == '!') = false := by
    simp [aliasStr_sigil h]
  unfold get_room_id_from_alias
  simp only [hnot, Bool.false_eq_true, if_false, h, if_true]
  refine ⟨?_, ?_, ?_⟩
  · cases henv : env.aliasLookup s <;> simp
  · intro rid hrid
    simp [hrid]
  · intro hrid
    simp [hrid]

/-- C7 witness: one lookup on a concrete alias returning the concrete
canonical id. -/
theorem resolver_alias_single_lookup_witness :
    isAliasStr "#general:example.org" = true ∧
    ((get_room_id_from_alias env0 "#general:example.org").2 =
        [Effect.aliasLookupCall "#general:example.org"] ∧
      (∀ rid, env0.aliasLookup "#general:example.org" = some rid →
        (get_room_id_from_alias env0 "#general:example.org").1 = .ok rid) ∧
      (env0.aliasLookup "#general:example.org" = none →
        (get_room_id_from_alias env0 "#general:example.org").1 =
          .panic "Alias lookup failed")) :=
  ⟨by decide, resolver_alias_single_lookup env0 "#general:example.org" (by decide)⟩

/-- C1 counterexample: `room join` on the alias #general:example.org,
whose lookup would return !abc123:example.org, issues a join call that
targets the raw alias string; the canonical id is never the join
target and the resolver is never consulted. -/
theorem join_targets_raw_alias :
    env0.aliasLookup "#general:example.org" = some "!abc123:example.org" ∧
    processJoin env0 "example.org" "#general:example.org" =
      (.ok (), [Effect.joinCall "#general:example.org" "example.org"]) ∧
    Effect.joinCall "!abc123:example.org" "example.org" ∉
      (processJoin env0 "example.org" "#general:example.org").2 ∧
    Effect.aliasLookupCall "#general:example.org" ∉
      (processJoin env0 "example.org" "#general:example.org").2 := by decide

/-- C1 amended: ban, kick, invite, leave and create-alias resolve the
alias through the Identifier Resolver before their membership call and
target the resolved canonical id; `message send` never consults the
resolver and panics on an alias token; `room join` passes the raw
token directly to join_room_by_id_or_alias. -/
theorem dispatcher_resolution_contract (env : Env)
    (t rid u a host msg : String) (reason : Option String)
    (ht : isAliasStr t = true)
    (hl : env.aliasLookup t = some rid)
    (hj : isJoined env rid = true)
    (hu : isUserIdStr u = true)
    (ha : isAliasStr a = true)
    (hh : isServerNameStr host = true)
    (hb : env.remoteOk (Effect.banCall rid u reason) = true)
    (hk : env.remoteOk (Effect.kickCall rid u reason) = true)
    (hi : env.remoteOk (Effect.inviteCall rid u) = true)
    (hlv : env.remoteOk (Effect.leaveCall rid) = true)
    (hca : env.remoteOk (Effect.createAliasCall a rid) = true)
    (hjn : env.remoteOk (Effect.joinCall t host) = true) :
    processBan env reason t u =
      (.ok (), [Effect.aliasLookupCall t, Effect.banCall rid u reason]) ∧
    processKick env reason t u =
      (.ok (), [Effect.aliasLookupCall t, Effect.kickCall rid u reason]) ∧
    processInvite env t u =
      (.ok (), [Effect.aliasLookupCall t, Effect.inviteCall rid u]) ∧
    processLeave env t =
      (.ok (), [Effect.aliasLookupCall t, Effect.leaveCall rid]) ∧
    processCreateAlias env t a =
      (.ok (), [Effect.aliasLookupCall t, Effect.createAliasCall a rid]) ∧
    processSend env t msg = (.panic "Invalid Room ID", []) ∧
    processJoin env host t = (.ok (), [Effect.joinCall t host]) := by
  have hres := get_room_id_from_alias_str_alias env t rid ht hl
  have hroa : isRoomOrAliasStr t = true := by
    simp [isRoomOrAliasStr, ht]
  refine ⟨?_, ?_, ?_, ?_, ?_, ?_, ?_⟩
  · simp [processBan, hres, hj, hu, remoteCall, hb]
  · simp [processKick, hres, hj, hu, remoteCall, hk]
  · simp [processInvite, hres, hj, hu, remoteCall, hi]
  · simp [processLeave, hres, hj, remoteCall, hlv]
  · simp [processCreateAlias, hres, get_room_alias_id_from_str, ha, remoteCall, hca]
  · simp [processSend, aliasStr_not_roomId ht]
  · simp [processJoin, get_room_id_or_alias_from_str, hroa, hh, remoteCall, hjn]

/-- C1 witness: the contract exercised on concrete tokens against the
concrete environment. -/
theorem dispatcher_resolution_contract_witness :
    isAliasStr "#general:example.org" = true ∧
    env0.aliasLookup "#general:example.org" = some "!abc123:example.org" ∧
    isJoined env0 "!abc123:example.org" = true ∧
    (processBan env0 none "#general:example.org" "@bob:example.org" =
        (.ok (), [Effect.aliasLookupCall "#general:example.org",
          Effect.banCall "!abc123:example.org" "@bob:example.org" none]) ∧
      processKick env0 none "#general:example.org" "@bob:example.org" =
        (.ok (), [Effect.aliasLookupCall "#general:example.org",
          Effect.kickCall "!abc123:example.org" "@bob:example.org" none]) ∧
      processInvite env0 "#general:example.org" "@bob:example.org" =
        (.ok (), [Effect.aliasLookupCall "#general:example.org",
          Effect.inviteCall "!abc123:example.org" "@bob:example.org"]) ∧
      processLeave env0 "#general:example.org" =
        (.ok (), [Effect.aliasLookupCall "#general:example.org",
          Effect.leaveCall "!abc123:example.org"]) ∧
      processCreateAlias env0 "#general:example.org" "#newalias:example.org" =
        (.ok (), [Effect.aliasLookupCall "#general:example.org",
          Effect.createAliasCall "#newalias:example.org" "!abc123:example.org"]) ∧
      processSend env0 "#general:example.org" "hello" =
        (.panic "Invalid Room ID", []) ∧
      processJoin env0 "example.org" "#general:example.org" =
        (.ok (), [Effect.joinCall "#general:example.org" "example.org"])) :=
  ⟨by decide, by decide, by decide,
    dispatcher_resolution_contract env0 "#general:example.org"
      "!abc123:example.org" "@bob:example.org" "#newalias:example.org"
      "example.org" "hello" none (by decide) (by decide) (by decide) (by decide)
      (by decide) (by decide) (by decide) (by decide) (by decide) (by decide)
      (by decide) (by decide)⟩

/-- C2: the listen callback ignores the commanded room: a text message
event arriving in a different joined room (!other:example.org while
listening to !abc123:example.org) is delivered (printed) anyway. -/
theorem listen_delivers_other_rooms :
    listenCallback evOther =
      some "From: @alice:example.org\nDate: 0\nMessage: hi\n" ∧
    evOther.roomId = "!other:example.org" ∧
    processListen env0 "!abc123:example.org" [evOther] =
      (.ok (),
        [Effect.print "Listening to room !abc123:example.org, Ctrl-C to stop",
         Effect.print "From: @alice:example.org\nDate: 0\nMessage: hi\n",
         Effect.print "Exiting."]) := by decide

/-- C3: `room create --name Test --version 9` parses and prints the
requested version, then sends a create-room request whose room_version
field is None (the server default), discarding the request. -/
theorem create_discards_requested_version :
    processCreate env0 false (some "Test") false none (some "9") =
      (.ok (),
        [Effect.printRoomVersion "9",
         Effect.printCreateRequest
           { name := some "Test", preset := .privateChat,
             room_alias_name := none, room_version := none },
         Effect.createRoomCall
           { name := some "Test", preset := .privateChat,
             room_alias_name := none, room_version := none },
         Effect.printResponse]) := by decide

/-- C5 counterexample: a dry-run create with an invalid requested
version panics during validation, so the would-be request parameters
are never printed (the claim promises a print on every dry-run
invocation); no create call occurs either. -/
theorem dry_run_invalid_version_unprinted :
    processCreate env0 true none false none (some "") =
      (.panic "Invalid room version", []) := by decide

/-- C5 amended: with the dry-run flag set no room-creation call is ever
issued; when the optional name and version are valid, the would-be
request parameters are printed and the handler returns successfully
without any network call. -/
theorem room_create_dry_run (env : Env)
    (name aliasStr version name2 aliasStr2 version2 : Option String)
    (is_public is_public2 : Bool)
    (hn : optValid isRoomNameStr name = true)
    (hv : optValid isRoomVersionStr version = true) :
    processCreate env true name is_public aliasStr version =
      (.ok (),
        versionPrints version ++
          [Effect.printCreateRequest
            { name := name, preset := mkPreset is_public,
              room_alias_name := aliasStr, room_version := none }]) ∧
    ((processCreate env true name2 is_public2 aliasStr2 version2).2.all
      fun e => !e.isCreateRoomCall) = true := by
  constructor
  · cases name <;> cases version <;>
      simp_all [processCreate, get_room_name_from_opt_str, createFinish,
        optValid, versionPrints]
  · cases name2 <;> cases version2 <;>
      simp only [processCreate, get_room_name_from_opt_str] <;>
      (first
        | (split_ifs <;> simp [createFinish, Effect.isCreateRoomCall])
        | simp [createFinish, Effect.isCreateRoomCall])

/-- C5 witness: a concrete dry-run create prints the request and makes
no call. -/
theorem room_create_dry_run_witness :
    optValid isRoomNameStr (some "Test") = true ∧
    optValid isRoomVersionStr (none : Option String) = true ∧
    (processCreate env0 true (some "Test") false none none =
      (.ok (),
        versionPrints none ++
          [Effect.printCreateRequest
            { name := some "Test", preset := mkPreset false,
              room_alias_name := none, room_version := none }]) ∧
      ((processCreate env0 true none false none (some "9")).2.all
        fun e => !e.isCreateRoomCall) = true) :=
  ⟨by decide, by decide,
    room_create_dry_run env0 (some "Test") none none none none (some "9")
      false false (by decide) (by decide)⟩

/-- C4: when the configured session file exists, login takes the
restore path: its result is independent of any supplied username and
password, and its trace contains no login call and no session-file
write; on the fresh path with an absent file, a successful login
writes the session file exactly once, immediately after the login
call. -/
theorem login_session_file_contract (env : Env) (u p : Option String)
    (f g uu pp : String)
    (hf : env.fileExists f = true) (hg : env.fileExists g = false)
    (hok : env.loginOk uu pp = true) (hw : env.writeOk g = true) :
    login env u p (some f) = login env none none (some f) ∧
    ((login env u p (some f)).2.all
      fun e => !e.isLoginCall && !e.isWriteSession) = true ∧
    (login env (some uu) (some pp) (some g)).2 =
      [Effect.loginCall uu pp, Effect.writeSessionFile g,
        Effect.syncOnceCall] := by
  have hrest : ∀ u2 p2 : Option String,
      login env u2 p2 (some f) = restoreLogin env f := by
    intro u2 p2
    simp [login, sessionFileExists, hf]
  refine ⟨by rw [hrest, hrest], ?_, ?_⟩
  · rw [hrest]
    unfold restoreLogin
    cases env.readSession f with
    | ok s =>
      by_cases hro : env.restoreOk s = true
      · simp [hro, finishSync_trace, Effect.isLoginCall, Effect.isWriteSession]
      · simp [hro, Effect.isLoginCall, Effect.isWriteSession]
    | err m => simp [Effect.isLoginCall, Effect.isWriteSession]
    | panic m => simp [Effect.isLoginCall, Effect.isWriteSession]
  · have hfresh : login env (some uu) (some pp) (some g) =
        freshLogin env (some uu) (some pp) (some g) := by
      simp [login, sessionFileExists, hg]
    rw [hfresh]
    unfold freshLogin
    simp [hok, hw, finishSync_trace]

/-- C4 witness: against a file system where only old.json exists,
restore ignores credentials and writes nothing, and a fresh login to
new.json writes once, right after the login call. -/
theorem login_session_file_contract_witness :
    envOld.fileExists "old.json" = true ∧
    envOld.fileExists "new.json" = false ∧
    (login envOld (some "user") (some "pw") (some "old.json") =
        login envOld none none (some "old.json") ∧
      ((login envOld (some "user") (some "pw") (some "old.json")).2.all
        fun e => !e.isLoginCall && !e.isWriteSession) = true ∧
      (login envOld (some "user") (some "pw") (some "new.json")).2 =
        [Effect.loginCall "user" "pw", Effect.writeSessionFile "new.json",
          Effect.syncOnceCall]) :=
  ⟨by decide, by decide,
    login_session_file_contract envOld (some "user") (some "pw")
      "old.json" "new.json" "user" "pw" (by decide) (by decide) (by decide)
      (by decide)⟩

/-- C8 counterexample: with no session file and no password, login
terminates by panic ("Missing password"), which is not a typed error
value, before any effect at all. -/
theorem missing_password_panics_untyped :
    login envFresh (some "user") none none = (.panic "Missing password", []) ∧
    (login envFresh (some "user") none none).1.isErr = false ∧
    (login envFresh (some "user") none none).1.isPanic = true := by decide

/-- C8 amended: when the configured session file does not exist (or
none is configured) and the password is absent, login panics with
"Missing username" or "Missing password" before any network call (its
effect trace is empty), rather than returning a typed
MissingCredentials error. -/
theorem login_missing_credentials_panics (env : Env) (u : Option String)
    (sf : Option String) (hsf : sessionFileExists env sf = false) :
    login env u none sf =
      ((match u with
        | none => Outcome.panic "Missing username"
        | some _ => Outcome.panic "Missing password"), []) := by
  cases u <;> cases sf <;>
    simp_all [login, sessionFileExists, freshLogin]

/-- C8 witness: a concrete run with a username but no password and no
session file panics with "Missing password" and an empty trace. -/
theorem login_missing_credentials_panics_witness :
    sessionFileExists envFresh (some "session.json") = false ∧
    login envFresh (some "user") none (some "session.json") =
      (Outcome.panic "Missing password", []) :=
  ⟨by decide,
    login_missing_credentials_panics envFresh (some "user")
      (some "session.json") (by decide)⟩

/-- C10: when the avatar-url call succeeds but the account has no
avatar URL set, the get-avatar-url handler panics (unwrap on None)
instead of returning a structured success or typed error. -/
theorem get_avatar_url_unwrap_panics (env : Env)
    (hok : env.avatarCallOk = true) (hnone : env.avatarUrl = none) :
    processUser env .getAvatarUrl =
      (.panic "called Option::unwrap() on a None value",
        [Effect.avatarUrlCall]) := by
  simp [processUser, hok, hnone]

/-- C10 witness: the concrete environment with no avatar URL panics. -/
theorem get_avatar_url_unwrap_panics_witness :
    env0.avatarCallOk = true ∧
    env0.avatarUrl = none ∧
    processUser env0 .getAvatarUrl =
      (.panic "called Option::unwrap() on a None value",
        [Effect.avatarUrlCall]) :=
  ⟨by decide, by decide, get_avatar_url_unwrap_panics env0 (by decide) (by decide)⟩

/-- A login that returns successfully necessarily went through the
forced initial sync, which is the last effect of its trace. -/
theorem login_ok_trace (env : Env) (u p : Option String)
    (sf : Option String) :
    (login env u p sf).1 = .ok () →
    ∃ pre, (login env u p sf).2 = pre ++ [Effect.syncOnceCall] := by
  have hfs : ∀ tr, ∃ pre, (finishSync env tr).2 = pre ++ [Effect.syncOnceCall] :=
    fun tr => ⟨tr, finishSync_trace env tr⟩
  unfold login
  split
  · unfold restoreLogin
    split
    · split
      · intro _
        exact hfs _
      · intro h
        simp at h
    · intro h
      simp at h
    · intro h
      simp at h
  · unfold freshLogin
    split
    · intro h
      simp at h
    · split
      · intro h
        simp at h
      · split
        · split
          · split
            · intro _
              exact hfs _
            · intro h
              simp at h
          · intro _
            exact hfs _
        · intro h
          simp at h

/-- C9: whenever login succeeds, the run trace of main decomposes as
the login trace (which ends with the synchronous initial state
snapshot) followed by the interleaving of the sync loop's and the
command dispatcher's traces: the snapshot strictly precedes every
effect of both tasks, for every schedule. -/
theorem initial_snapshot_precedes_tasks (env : Env) (args : Args)
    (sched : List Bool) (n : Nat) (events : List SyncEvent) (host : String)
    (hh : env.parseHost args.homeserver_url = some host)
    (hok : (login env args.username args.password args.session_file).1 =
      .ok ()) :
    ∃ pre, (mainRun env args sched n events).2 =
      pre ++ [Effect.syncOnceCall] ++
        mergeTrace sched (syncTrace n)
          (process_cmd env args.dry_run args.subcommands host events).2 := by
  obtain ⟨pre, hpre⟩ :=
    login_ok_trace env args.username args.password args.session_file hok
  refine ⟨pre, ?_⟩
  simp [mainRun, hh, hok, hpre, List.append_assoc]

/-- C9 witness: a concrete restored-session run with no subcommand and
two sync-loop fetches. -/
theorem initial_snapshot_precedes_tasks_witness :
    env0.parseHost args0.homeserver_url = some "example.org" ∧
    (login env0 args0.username args0.password args0.session_file).1 =
      .ok () ∧
    (∃ pre, (mainRun env0 args0 [] 2 []).2 =
      pre ++ [Effect.syncOnceCall] ++
        mergeTrace [] (syncTrace 2)
          (process_cmd env0 args0.dry_run args0.subcommands "example.org"
            []).2) :=
  ⟨by decide, by decide,
    initial_snapshot_precedes_tasks env0 args0 [] 2 [] "example.org"
      (by decide) (by decide)⟩
